import Mathlib

/-!
Shallow embedding of the webhook event-processing core of the backend
(`src/routes/webhook.js`) and of the payment-creation handler
(`src/unnamed/part_003`), together with proofs about the claims of the
natural-language specification.

Conventions of the embedding:
* SQL tables are Lean lists of row structures; a `SELECT ... WHERE c = ?`
  is a `List.filter`, an `UPDATE ... WHERE c = ?` is a `List.map` that
  rewrites exactly the matching rows, `affectedRows` is the number of
  matching rows, and an `INSERT` appends a row (auto-increment ids are
  modelled as `length + 1`).
* `CURRENT_TIMESTAMP` / `NOW()` is an explicit `now : Nat` parameter.
* A JS value that may be `undefined`/`null` is an `Option`.
* A JS `try/catch` around fallible database calls is modelled with
  `Except String`; the points at which `connection.execute` may throw are
  driven by an explicit error oracle where a claim needs them.
* The raw JSON body of a webhook delivery is modelled by the structured
  value `ReqBody`; `JSON.stringify` / `JSON.parse` round-trip to the
  identity on this representation.
-/

namespace Back

/-- A row of the `payments` table.  Columns not read or written by the
webhook core (amount, invoice urls, due date, ...) are omitted. -/
structure PaymentRow where
  id : Nat
  asaas_payment_id : String
  status : String
  customer_id : Nat
  plan_type : String
  updated_at : Nat
deriving DecidableEq, Repr

/-- The structured content of a webhook delivery body:
`{ event, payment: { id } }`.  `paymentId = none` models a body whose
`payment.id` is absent/undefined. -/
structure ReqBody where
  event : String
  paymentId : Option String
deriving DecidableEq, Repr

/-- A row of the `webhook_logs` table. -/
structure WebhookLogRow where
  id : Nat
  payment_id : Option String
  event_type : String
  payload : ReqBody
  processed : Bool
  error_message : Option String
deriving DecidableEq, Repr

/-- A row of the `customer_features` table
(written by `activateEssentialPlan` / `activateCompletePlan`). -/
structure FeatureRow where
  customer_id : Nat
  feature_name : String
  is_active : Bool
deriving DecidableEq, Repr

/-- A row of the `customers` table (the columns used by
`createPaymentHandler` in `src/unnamed/part_003`). -/
structure CustomerRow where
  id : Nat
  nome : String
  cpf : String
  email : String
  telefone : String
  asaas_customer_id : String
deriving DecidableEq, Repr

/-- The database state. -/
structure DB where
  payments : List PaymentRow
  webhook_logs : List WebhookLogRow
  customer_features : List FeatureRow
  customers : List CustomerRow
deriving DecidableEq, Repr

/-- JS `payment?.id || null` (used when binding the log rows): an empty
string id is falsy in JS and is stored as SQL `NULL`. -/
def jsIdOrNull (pid : Option String) : Option String :=
  match pid with
  | none => none
  | some s => if s = "" then none else some s

/-- SQL equality against a bind parameter that may be `NULL`:
`col = NULL` is never true in SQL. -/
def sqlEqOpt (col param : Option String) : Bool :=
  match col, param with
  | some a, some b => a == b
  | _, _ => false

/-- Semantics of `UPDATE ... WHERE pred ORDER BY created_at DESC LIMIT 1`: rows were
appended in timestamp order, so this rewrites the LAST row satisfying
`pred` (and nothing else). -/
def updateLast (pred : α → Bool) (g : α → α) : List α → List α
  | [] => []
  | x :: xs =>
    if xs.any pred then x :: updateLast pred g xs
    else if pred x then g x :: xs
    else x :: xs

/-- The `UPDATE payments SET status = ?, updated_at = CURRENT_TIMESTAMP
WHERE asaas_payment_id = ?` statement of `updatePaymentStatus`: returns
the new table state and `affectedRows`. -/
def sqlUpdateStatus (now : Nat) (apid st : String) (db : DB) : DB × Nat :=
  ({ db with
      payments := db.payments.map fun p =>
        if p.asaas_payment_id == apid then { p with status := st, updated_at := now } else p },
   (db.payments.filter fun p => p.asaas_payment_id == apid).length)

/-- The body of `updatePaymentStatus` (webhook.js:208-300) up to its
`catch`.  `dbSel` is the database state seen by the existence `SELECT`
of step 1, `dbUpd` the state the conditional `UPDATE` runs against
(they differ exactly when another process wrote in between).  `errs k`
is the error thrown by the k-th `connection.execute` call of the body
(0: existence select, 1: the "similar payments" select of the not-found
branch, 2: the update, 3: the verification select), `none` when that
call succeeds. -/
def updatePaymentStatusTry (now : Nat) (apid st : String) (dbSel dbUpd : DB)
    (errs : Nat → Option String) : Except String (Bool × DB) :=
  match errs 0 with
  | some e => Except.error e
  | none =>
    match dbSel.payments.filter (fun p => p.asaas_payment_id == apid) with
    | [] =>
      match errs 1 with
      | some e => Except.error e
      | none => Except.ok (false, dbUpd)
    | p0 :: _ =>
      if p0.status = st then Except.ok (true, dbUpd)
      else
        match errs 2 with
        | some e => Except.error e
        | none =>
          if (sqlUpdateStatus now apid st dbUpd).2 = 0 then
            Except.ok (false, (sqlUpdateStatus now apid st dbUpd).1)
          else
            match errs 3 with
            | some e => Except.error e
            | none => Except.ok (true, (sqlUpdateStatus now apid st dbUpd).1)

/-- Function `updatePaymentStatus` with its `catch` block, which swallows every
thrown error and returns `false`.  The codomain is still `Except` so
that "no exception escapes" is expressible, and the database component
is dropped because a caller only observes the boolean. -/
def updatePaymentStatusE (now : Nat) (apid st : String) (dbSel dbUpd : DB)
    (errs : Nat → Option String) : Except String Bool :=
  match updatePaymentStatusTry now apid st dbSel dbUpd errs with
  | Except.ok r => Except.ok r.1
  | Except.error _ => Except.ok false

/-- Function `updatePaymentStatus` when no database call throws, with the two
snapshots still separate (used for the race analysis of §4.3 step 3). -/
def updatePaymentStatusCore (now : Nat) (apid st : String) (dbSel dbUpd : DB) : Bool × DB :=
  match dbSel.payments.filter (fun p => p.asaas_payment_id == apid) with
  | [] => (false, dbUpd)
  | p0 :: _ =>
    if p0.status = st then (true, dbUpd)
    else if (sqlUpdateStatus now apid st dbUpd).2 = 0 then
      (false, (sqlUpdateStatus now apid st dbUpd).1)
    else (true, (sqlUpdateStatus now apid st dbUpd).1)

/-- Function `updatePaymentStatus` in a quiescent, error-free execution: both
snapshots are the same state. -/
def updatePaymentStatus (now : Nat) (apid st : String) (db : DB) : Bool × DB :=
  updatePaymentStatusCore now apid st db db

theorem updatePaymentStatusTry_none (now : Nat) (apid st : String) (dbSel dbUpd : DB) :
    updatePaymentStatusTry now apid st dbSel dbUpd (fun _ => none)
      = Except.ok (updatePaymentStatusCore now apid st dbSel dbUpd) := by
  unfold updatePaymentStatusTry updatePaymentStatusCore
  cases dbSel.payments.filter (fun p => p.asaas_payment_id == apid) with
  | nil => rfl
  | cons p0 rest =>
    by_cases h : p0.status = st
    · simp [h]
    · simp only [h, if_false]
      by_cases h2 : (sqlUpdateStatus now apid st dbUpd).2 = 0 <;> simp [h2]

/-! ### Generic list lemmas about the SQL embedding -/

theorem filter_map_ite (p : α → Bool) (g : α → α) (hg : ∀ a, p (g a) = p a) :
    ∀ l : List α, (l.map fun a => if p a then g a else a).filter p = (l.filter p).map g := by
  intro l
  induction l with
  | nil => rfl
  | cons x xs ih =>
    by_cases hx : p x = true
    · simp only [List.map_cons, List.filter_cons, hx, hg x, if_pos rfl, if_true, ih]
    · have hx' : p x = false := by revert hx; cases p x <;> simp
      simp only [List.map_cons, List.filter_cons, hx', if_neg, ih, if_false]
      simp [hx']

theorem map_ite_of_countP_zero (p : α → Bool) (g : α → α) :
    ∀ l : List α, l.countP p = 0 → (l.map fun a => if p a then g a else a) = l := by
  intro l
  induction l with
  | nil => intro _; rfl
  | cons x xs ih =>
    intro h
    rw [List.countP_cons] at h
    have hx : p x = false := by
      revert h; cases p x <;> simp
    have hxs : xs.countP p = 0 := by omega
    simp [hx, ih hxs]

theorem updateLast_exists (pred : α → Bool) (g : α → α) (P : α → Prop)
    (hg : ∀ a, P a → P (g a)) :
    ∀ l : List α, (∃ r ∈ l, P r) → ∃ r ∈ updateLast pred g l, P r := by
  intro l
  induction l with
  | nil => intro h; exact h
  | cons x xs ih =>
    intro h
    obtain ⟨r, hr, hPr⟩ := h
    unfold updateLast
    by_cases hany : xs.any pred = true
    · simp only [hany, if_true]
      rcases List.mem_cons.mp hr with h1 | h2
      · exact ⟨x, List.mem_cons_self x _, h1 ▸ hPr⟩
      · obtain ⟨r', hr', hPr'⟩ := ih ⟨r, h2, hPr⟩
        exact ⟨r', List.mem_cons_of_mem _ hr', hPr'⟩
    · have hany' : xs.any pred = false := by revert hany; cases xs.any pred <;> simp
      simp only [hany', if_neg, Bool.false_eq_true, not_false_iff]
      by_cases hx : pred x = true
      · simp only [hx, if_true]
        rcases List.mem_cons.mp hr with h1 | h2
        · exact ⟨g x, List.mem_cons_self _ _, hg x (h1 ▸ hPr)⟩
        · exact ⟨r, List.mem_cons_of_mem _ h2, hPr⟩
      · have hx' : pred x = false := by revert hx; cases pred x <;> simp
        simp only [hx', Bool.false_eq_true, if_neg, not_false_iff]
        exact ⟨r, hr, hPr⟩

/-! ### Activation / deactivation side effects (webhook.js:302-473) -/

/-- The `INSERT ... ON DUPLICATE KEY UPDATE is_active = TRUE` statement
shared by `activateEssentialPlan` and `activateCompletePlan`, keyed by
(customer_id, feature_name). -/
def upsertFeature (cid : Nat) (fname : String) (db : DB) : DB :=
  if db.customer_features.any (fun f => f.customer_id == cid && f.feature_name == fname) then
    { db with
        customer_features := db.customer_features.map fun f =>
          if f.customer_id == cid && f.feature_name == fname then { f with is_active := true } else f }
  else
    { db with customer_features := db.customer_features ++ [⟨cid, fname, true⟩] }

/-- Function `activateEssentialPlan` (webhook.js:402-418): upserts the
`basic_features` flag row for the payment's customer. -/
def activateEssentialPlan (customer_id : Nat) (db : DB) : DB :=
  upsertFeature customer_id "basic_features" db

/-- Function `activateCompletePlan` (webhook.js:420-436): upserts the
`premium_features` flag row for the payment's customer. -/
def activateCompletePlan (customer_id : Nat) (db : DB) : DB :=
  upsertFeature customer_id "premium_features" db

/-- Body of `activateCustomerServices` (webhook.js:303-394) up to its
`catch`.  Its first database-facing statement is
`await debugTableStructure(connection)` (webhook.js:308), but
`debugTableStructure` is not defined anywhere in the repository, so this
call raises `ReferenceError: debugTableStructure is not defined` before
any row is read or written; the plan dispatch to
`activateEssentialPlan`/`activateCompletePlan` below it is unreachable. -/
def activateCustomerServicesBody (_asaasPaymentId : String) (_db : DB) : Except String DB :=
  Except.error "ReferenceError: debugTableStructure is not defined"

/-- Function `activateCustomerServices` (webhook.js:303-399): the body together
with the `catch`, which only logs, so the observable database effect of
the whole call is none. -/
def activateCustomerServices (asaasPaymentId : String) (db : DB) : DB :=
  match activateCustomerServicesBody asaasPaymentId db with
  | Except.ok db' => db'
  | Except.error _ => db

/-- Function `deactivateCustomerServices` (webhook.js:440-473): reads the payment
and customer and logs; it performs no write (the teardown is an
explicitly stubbed extension point), so the database is unchanged. -/
def deactivateCustomerServices (_asaasPaymentId : String) (db : DB) : DB :=
  db

/-! ### Event handlers (webhook.js:139-205) -/

def handlePaymentCreated (now : Nat) (pid : String) (db : DB) : DB :=
  (updatePaymentStatus now pid "PENDING" db).2

def handlePaymentAwaitingConfirmation (now : Nat) (pid : String) (db : DB) : DB :=
  (updatePaymentStatus now pid "PENDING" db).2

def handlePaymentConfirmed (now : Nat) (pid : String) (db : DB) : DB :=
  (updatePaymentStatus now pid "CONFIRMED" db).2

/-- Handler `handlePaymentReceived` (webhook.js:159-176): on a successful status
update the activation side effect is invoked; on failure it is not. -/
def handlePaymentReceived (now : Nat) (pid : String) (db : DB) : DB :=
  match updatePaymentStatus now pid "RECEIVED" db with
  | (success, db2) => if success then activateCustomerServices pid db2 else db2

def handlePaymentOverdue (now : Nat) (pid : String) (db : DB) : DB :=
  (updatePaymentStatus now pid "OVERDUE" db).2

def handlePaymentDeleted (now : Nat) (pid : String) (db : DB) : DB :=
  (updatePaymentStatus now pid "CANCELLED" db).2

def handlePaymentRestored (now : Nat) (pid : String) (db : DB) : DB :=
  (updatePaymentStatus now pid "PENDING" db).2

def handlePaymentRefunded (now : Nat) (pid : String) (db : DB) : DB :=
  deactivateCustomerServices pid (updatePaymentStatus now pid "REFUNDED" db).2

/-- Calling a handler with the delivery's `payment` object: every handler
dereferences `payment.id`, so a missing payment id raises a `TypeError`. -/
def runHandler (h : Nat → String → DB → DB) (now : Nat) (pid : Option String) (db : DB) :
    Except String DB :=
  match pid with
  | some p => Except.ok (h now p db)
  | none => Except.error "TypeError: Cannot read properties of undefined"

/-- The `switch (event)` dispatch of the webhook route
(webhook.js:65-108); an unrecognized event type only logs. -/
def dispatchEvent (now : Nat) (body : ReqBody) (db : DB) : Except String DB :=
  if body.event = "PAYMENT_CREATED" then runHandler handlePaymentCreated now body.paymentId db
  else if body.event = "PAYMENT_AWAITING_CONFIRMATION" then
    runHandler handlePaymentAwaitingConfirmation now body.paymentId db
  else if body.event = "PAYMENT_CONFIRMED" then runHandler handlePaymentConfirmed now body.paymentId db
  else if body.event = "PAYMENT_RECEIVED" then runHandler handlePaymentReceived now body.paymentId db
  else if body.event = "PAYMENT_OVERDUE" then runHandler handlePaymentOverdue now body.paymentId db
  else if body.event = "PAYMENT_DELETED" then runHandler handlePaymentDeleted now body.paymentId db
  else if body.event = "PAYMENT_RESTORED" then runHandler handlePaymentRestored now body.paymentId db
  else if body.event = "PAYMENT_REFUNDED" then runHandler handlePaymentRefunded now body.paymentId db
  else Except.ok db

/-! ### The webhook route (webhook.js:46-136) -/

/-- The statement `INSERT INTO webhook_logs (payment_id, event_type, payload)`
(webhook.js:59-62), binding `payment?.id || null`. -/
def insertWebhookLog (body : ReqBody) (db : DB) : DB :=
  { db with
      webhook_logs := db.webhook_logs ++
        [⟨db.webhook_logs.length + 1, jsIdOrNull body.paymentId, body.event, body, false, none⟩] }

/-- The statement `UPDATE webhook_logs SET processed = TRUE WHERE payment_id = ? AND
event_type = ? ORDER BY created_at DESC LIMIT 1` (webhook.js:111-114). -/
def markLastProcessed (body : ReqBody) (db : DB) : DB :=
  { db with
      webhook_logs :=
        updateLast
          (fun l => sqlEqOpt l.payment_id (jsIdOrNull body.paymentId) && l.event_type == body.event)
          (fun l => { l with processed := true }) db.webhook_logs }

/-- The error branch (webhook.js:124-132): `UPDATE webhook_logs SET
error_message = ? WHERE payment_id = ? ORDER BY created_at DESC LIMIT 1`. -/
def recordWebhookError (msg : String) (body : ReqBody) (db : DB) : DB :=
  { db with
      webhook_logs :=
        updateLast (fun l => sqlEqOpt l.payment_id (jsIdOrNull body.paymentId))
          (fun l => { l with error_message := some msg }) db.webhook_logs }

/-- Route `POST /webhook/asaas` after the signature middleware, with explicit
downstream failure injection: `dispatchErr` (resp. `markErr`) is the
error thrown by the event-dispatch step (resp. the mark-processed step)
when not `none`.  Returns the HTTP status code and the final database
state; the try/catch maps any thrown error to the error-logging branch
and a 500 response. -/
def postAsaasFallible (now : Nat) (body : ReqBody) (db : DB)
    (dispatchErr markErr : Option String) : Nat × DB :=
  let db1 := insertWebhookLog body db
  match (match dispatchErr with
         | some e => Except.error e
         | none => dispatchEvent now body db1) with
  | Except.error e => (500, recordWebhookError e body db1)
  | Except.ok db2 =>
    match markErr with
    | some e => (500, recordWebhookError e body db2)
    | none => (200, markLastProcessed body db2)

/-- Route `POST /webhook/asaas` in an execution where no downstream step
throws. -/
def postAsaas (now : Nat) (body : ReqBody) (db : DB) : Nat × DB :=
  postAsaasFallible now body db none none

/-! ### The event → status table of the specification (§4.3) -/

/-- The event → resulting-status table of spec §4.3.  `none`: the event
type is unrecognized and must leave every status unchanged. -/
def eventTarget (event : String) : Option String :=
  if event = "PAYMENT_CREATED" then some "PENDING"
  else if event = "PAYMENT_AWAITING_CONFIRMATION" then some "PENDING"
  else if event = "PAYMENT_CONFIRMED" then some "CONFIRMED"
  else if event = "PAYMENT_RECEIVED" then some "RECEIVED"
  else if event = "PAYMENT_OVERDUE" then some "OVERDUE"
  else if event = "PAYMENT_DELETED" then some "CANCELLED"
  else if event = "PAYMENT_RESTORED" then some "PENDING"
  else if event = "PAYMENT_REFUNDED" then some "REFUNDED"
  else none

/-! ### Signature middleware (webhook.js:8-43) -/

/-- Outcome of an express middleware: pass the request on, or end it
with a status code. -/
inductive MwResult
  | accepted
  | rejected (status : Nat)
deriving DecidableEq, Repr

/-- Middleware `verifyWebhookSignature` (webhook.js:8-43).  `hmacHex s b` stands for
`crypto.createHmac('sha256', s).update(b).digest('hex')` and is kept
abstract; `secret` is `process.env.ASAAS_WEBHOOK_SECRET` (`none` when
unset), `sig` the `asaas-signature` header, `bodyJson` the value of
`JSON.stringify(req.body)`. -/
def verifyWebhookSignature (hmacHex : String → String → String)
    (secret : Option String) (sig : Option String) (bodyJson : String) : MwResult :=
  match secret with
  | none => MwResult.accepted
  | some s =>
    if s = "" ∨ s = "your_webhook_secret_here" then MwResult.accepted
    else
      match sig with
      | none => MwResult.rejected 401
      | some sg =>
        if sg = hmacHex s bodyJson then MwResult.accepted else MwResult.rejected 401

/-- The spec's notion of "a shared secret is configured": non-empty and
not the placeholder value. -/
def secretConfigured (secret : Option String) : Prop :=
  ∃ s, secret = some s ∧ s ≠ "" ∧ s ≠ "your_webhook_secret_here"

/-! ### The reprocessing endpoint (webhook.js:476-529) -/

/-- The `switch (event)` of `POST /webhook/reprocess/:webhookId`
(webhook.js:499-512): only `PAYMENT_CREATED`, `PAYMENT_RECEIVED` and
`PAYMENT_OVERDUE` are re-dispatched; every other event type only logs
"cannot be reprocessed automatically". -/
def reprocessDispatch (now : Nat) (body : ReqBody) (db : DB) : Except String DB :=
  if body.event = "PAYMENT_CREATED" then runHandler handlePaymentCreated now body.paymentId db
  else if body.event = "PAYMENT_RECEIVED" then runHandler handlePaymentReceived now body.paymentId db
  else if body.event = "PAYMENT_OVERDUE" then runHandler handlePaymentOverdue now body.paymentId db
  else Except.ok db

/-- Route `POST /webhook/reprocess/:webhookId` (webhook.js:476-529): look the
log row up by id (404 when absent), parse the stored payload, run the
restricted dispatch above, then `UPDATE webhook_logs SET processed =
TRUE, updated_at = CURRENT_TIMESTAMP WHERE id = ?`; a thrown error is
caught and answered with 500. -/
def reprocessWebhook (now : Nat) (webhookId : Nat) (db : DB) : Nat × DB :=
  match db.webhook_logs.filter (fun l => l.id == webhookId) with
  | [] => (404, db)
  | log :: _ =>
    match reprocessDispatch now log.payload db with
    | Except.error _ => (500, db)
    | Except.ok db1 =>
      (200,
       { db1 with
           webhook_logs := db1.webhook_logs.map fun l =>
             if l.id == webhookId then { l with processed := true } else l })

/-! ### The payment-creation handler (src/unnamed/part_003:391-570) -/

/-- A validated payment-creation request (the output of
`paymentSchema.validate`; validation itself is out of scope of the
claims about this handler). -/
structure PaymentReqV where
  nome : String
  cpf : String
  email : String
  telefone : String
  paymentMethod : String
  planType : String
  amount : Nat
deriving DecidableEq, Repr

/-- The gateway's responses for one run of the handler: the id field of
the `asaasService.createCustomer` reply (`none` when the reply carries
no id) and likewise for `asaasService.createPayment`. -/
structure GatewayResp where
  customerId : Option String
  paymentId : Option String
deriving DecidableEq, Repr

/-- The tail of `createPaymentHandler` after the customer step: create
the remote payment (an id-less reply throws, is caught, and answers
500) and insert the local Payment row with status `PENDING`.  The last
component of the result records which remote customer reference was
passed to `asaasService.createPayment`. -/
def finishPaymentCreation (now : Nat) (gw : GatewayResp) (req : PaymentReqV)
    (cid : Nat) (acid : String) (db : DB) : Nat × DB × Option String :=
  match gw.paymentId with
  | none => (500, db, some acid)
  | some apid =>
    (200,
     { db with
         payments := db.payments ++
           [⟨db.payments.length + 1, apid, "PENDING", cid, req.planType, now⟩] },
     some acid)

/-- Handler `createPaymentHandler` (src/unnamed/part_003:391-570) from the
customer lookup on: `SELECT id, asaas_customer_id FROM customers WHERE
email = ? OR cpf = ?`; if a row is found, refresh `nome`/`telefone` of
that customer and reuse its remote reference; otherwise create the
remote customer (an id-less reply throws → caught → 500, nothing
persisted) and insert exactly one new Customer row. -/
def createPaymentHandler (now : Nat) (gw : GatewayResp) (req : PaymentReqV) (db : DB) :
    Nat × DB × Option String :=
  match db.customers.filter (fun c => c.email == req.email || c.cpf == req.cpf) with
  | c0 :: _ =>
    let db1 :=
      { db with
          customers := db.customers.map fun c =>
            if c.id == c0.id then { c with nome := req.nome, telefone := req.telefone } else c }
    finishPaymentCreation now gw req c0.id c0.asaas_customer_id db1
  | [] =>
    match gw.customerId with
    | none => (500, db, none)
    | some acid =>
      let cid := db.customers.length + 1
      let db1 :=
        { db with
            customers := db.customers ++
              [⟨cid, req.nome, req.cpf, req.email, req.telefone, acid⟩] }
      finishPaymentCreation now gw req cid acid db1

/-! ### Basic facts about the embedded operations -/

theorem activateCustomerServices_eq (pid : String) (db : DB) :
    activateCustomerServices pid db = db := rfl

theorem handlePaymentReceived_eq (now : Nat) (pid : String) (db : DB) :
    handlePaymentReceived now pid db = (updatePaymentStatus now pid "RECEIVED" db).2 := by
  unfold handlePaymentReceived
  rcases h : updatePaymentStatus now pid "RECEIVED" db with ⟨b, d⟩
  cases b <;> rfl

/-- Step 1 of §4.3: when no Payment row carries the external id, the
transition reports failure and the state is untouched. -/
theorem updatePaymentStatus_notFound (now : Nat) (apid st : String) (db : DB)
    (h : db.payments.filter (fun p => p.asaas_payment_id == apid) = []) :
    updatePaymentStatus now apid st db = (false, db) := by
  unfold updatePaymentStatus updatePaymentStatusCore
  rw [h]

/-- Step 2 of §4.3: when the current status already equals the target,
the transition is a successful no-op. -/
theorem updatePaymentStatus_short (now : Nat) (apid st : String) (db : DB)
    (p0 : PaymentRow) (rest : List PaymentRow)
    (hf : db.payments.filter (fun p => p.asaas_payment_id == apid) = p0 :: rest)
    (hst : p0.status = st) :
    updatePaymentStatus now apid st db = (true, db) := by
  unfold updatePaymentStatus updatePaymentStatusCore
  rw [hf]
  simp [hst]

/-- Step 3 of §4.3 in a quiescent execution: the row exists with a
different status, the conditional update matches it and succeeds. -/
theorem updatePaymentStatus_update (now : Nat) (apid st : String) (db : DB)
    (p0 : PaymentRow) (rest : List PaymentRow)
    (hf : db.payments.filter (fun p => p.asaas_payment_id == apid) = p0 :: rest)
    (hst : p0.status ≠ st) :
    updatePaymentStatus now apid st db = (true, (sqlUpdateStatus now apid st db).1) := by
  unfold updatePaymentStatus updatePaymentStatusCore
  rw [hf]
  have hlen : (sqlUpdateStatus now apid st db).2 = rest.length + 1 := by
    simp [sqlUpdateStatus, hf]
  simp [hst, hlen]

theorem sqlUpdateStatus_frame (now : Nat) (apid st : String) (db : DB) :
    (sqlUpdateStatus now apid st db).1.webhook_logs = db.webhook_logs
    ∧ (sqlUpdateStatus now apid st db).1.customer_features = db.customer_features
    ∧ (sqlUpdateStatus now apid st db).1.customers = db.customers := by
  exact ⟨rfl, rfl, rfl⟩

theorem updatePaymentStatusCore_frame (now : Nat) (apid st : String) (dbSel dbUpd : DB) :
    (updatePaymentStatusCore now apid st dbSel dbUpd).2.webhook_logs = dbUpd.webhook_logs
    ∧ (updatePaymentStatusCore now apid st dbSel dbUpd).2.customer_features
        = dbUpd.customer_features
    ∧ (updatePaymentStatusCore now apid st dbSel dbUpd).2.customers = dbUpd.customers := by
  unfold updatePaymentStatusCore
  split
  · exact ⟨rfl, rfl, rfl⟩
  · split
    · exact ⟨rfl, rfl, rfl⟩
    · split <;> exact ⟨rfl, rfl, rfl⟩

/-- The identity of the asaas payment id is untouched by the status
update, so the updated table filters to the updated matching rows. -/
theorem updatePaymentStatus_filter_after (now : Nat) (apid st : String) (db : DB) :
    ((sqlUpdateStatus now apid st db).1.payments.filter fun p => p.asaas_payment_id == apid)
      = (db.payments.filter fun p => p.asaas_payment_id == apid).map
          (fun p => { p with status := st, updated_at := now }) := by
  have := filter_map_ite (fun p : PaymentRow => p.asaas_payment_id == apid)
    (fun p => { p with status := st, updated_at := now }) (fun _ => rfl) db.payments
  simpa [sqlUpdateStatus] using this

/-- Dispatching a recognized event with a present payment id runs the
matching handler, whose net effect on the database is exactly the
status transition of the §4.3 table (the activation/deactivation side
effects being database no-ops, see `activateCustomerServices`). -/
theorem dispatchEvent_known (now : Nat) (E st P : String) (db : DB)
    (hE : eventTarget E = some st) :
    dispatchEvent now ⟨E, some P⟩ db
      = Except.ok (updatePaymentStatus now P st db).2 := by
  unfold eventTarget at hE
  split_ifs at hE with h1 h2 h3 h4 h5 h6 h7 h8 <;> cases hE <;> subst_vars <;>
    simp [dispatchEvent, runHandler, handlePaymentCreated,
      handlePaymentAwaitingConfirmation, handlePaymentConfirmed,
      handlePaymentReceived_eq, handlePaymentOverdue, handlePaymentDeleted,
      handlePaymentRestored, handlePaymentRefunded, deactivateCustomerServices]

/-- Dispatching an unrecognized event only logs: the database is
returned unchanged. -/
theorem dispatchEvent_unknown (now : Nat) (body : ReqBody) (db : DB)
    (hE : eventTarget body.event = none) :
    dispatchEvent now body db = Except.ok db := by
  unfold eventTarget at hE
  split_ifs at hE with h1 h2 h3 h4 h5 h6 h7 h8
  all_goals try cases hE
  simp [dispatchEvent, h1, h2, h3, h4, h5, h6, h7, h8]

/-- When the dispatch step resolves, the route answers 200 and marks the
most recent matching log row processed. -/
theorem postAsaas_ok (now : Nat) (body : ReqBody) (db db2 : DB)
    (h : dispatchEvent now body (insertWebhookLog body db) = Except.ok db2) :
    postAsaas now body db = (200, markLastProcessed body db2) := by
  unfold postAsaas postAsaasFallible
  simp only [h]

/-- Inversion for the dispatch step: it either leaves the database alone
(unrecognized event) or applies exactly one status transition. -/
theorem dispatchEvent_cases (now : Nat) (body : ReqBody) (db db2 : DB)
    (h : dispatchEvent now body db = Except.ok db2) :
    db2 = db ∨ ∃ pid st, body.paymentId = some pid
      ∧ db2 = (updatePaymentStatus now pid st db).2 := by
  unfold dispatchEvent at h
  split_ifs at h <;>
    first
    | (left
       injection h with h
       exact h.symm)
    | (right
       cases hp : body.paymentId with
       | none =>
         rw [hp] at h
         exact absurd h (by simp [runHandler])
       | some p =>
         rw [hp] at h
         simp only [runHandler] at h
         injection h with h
         subst h
         simp only [handlePaymentCreated, handlePaymentAwaitingConfirmation,
           handlePaymentConfirmed, handlePaymentReceived_eq, handlePaymentOverdue,
           handlePaymentDeleted, handlePaymentRestored, handlePaymentRefunded,
           deactivateCustomerServices]
         exact ⟨p, _, rfl, rfl⟩)

/-- The dispatch step never touches the `webhook_logs` table. -/
theorem dispatchEvent_logs (now : Nat) (body : ReqBody) (db db2 : DB)
    (h : dispatchEvent now body db = Except.ok db2) :
    db2.webhook_logs = db.webhook_logs := by
  rcases dispatchEvent_cases now body db db2 h with h1 | ⟨pid, st, _, h2⟩
  · rw [h1]
  · rw [h2]
    exact (updatePaymentStatusCore_frame now pid st db db).1

/-- When no Payment row matches the delivered payment id, no handler
changes anything: the transition reports not-found and the activation
side effect is never invoked. -/
theorem dispatchEvent_notFound (now : Nat) (E P : String) (db : DB)
    (h : db.payments.filter (fun p => p.asaas_payment_id == P) = []) :
    dispatchEvent now ⟨E, some P⟩ db = Except.ok db := by
  have hupd : ∀ (n : Nat) (st : String), updatePaymentStatus n P st db = (false, db) :=
    fun n st => updatePaymentStatus_notFound n P st db h
  unfold dispatchEvent
  split_ifs <;>
    simp [runHandler, handlePaymentCreated, handlePaymentAwaitingConfirmation,
      handlePaymentConfirmed, handlePaymentReceived, handlePaymentOverdue,
      handlePaymentDeleted, handlePaymentRestored, handlePaymentRefunded,
      deactivateCustomerServices, hupd]

/-- After a quiescent `updatePaymentStatus`, every row carrying the
external id has the target status, provided the id was unique (it is,
by the schema's UNIQUE constraint on `asaas_payment_id`). -/
theorem updatePaymentStatus_status_after (now : Nat) (P st : String) (db : DB)
    (hcount : db.payments.countP (fun p => p.asaas_payment_id == P) = 1) :
    ∀ q ∈ (updatePaymentStatus now P st db).2.payments,
      q.asaas_payment_id = P → q.status = st := by
  intro q hq hqid
  have hlen : (db.payments.filter fun p => p.asaas_payment_id == P).length = 1 := by
    rw [← List.countP_eq_length_filter]
    exact hcount
  obtain ⟨p0, hp0⟩ := List.length_eq_one.mp hlen
  by_cases hst : p0.status = st
  · rw [updatePaymentStatus_short now P st db p0 [] hp0 hst] at hq
    have : q ∈ db.payments.filter fun p => p.asaas_payment_id == P :=
      List.mem_filter.mpr ⟨hq, by simp [hqid]⟩
    rw [hp0] at this
    rw [List.mem_singleton.mp this]
    exact hst
  · rw [updatePaymentStatus_update now P st db p0 [] hp0 hst] at hq
    simp only [sqlUpdateStatus] at hq
    obtain ⟨a, _, hqa⟩ := List.mem_map.mp hq
    by_cases ha : a.asaas_payment_id = P
    · rw [← hqa]
      simp [ha]
    · rw [← hqa] at hqid
      simp [ha] at hqid

/-! ### Concrete databases used by witnesses and counterexamples -/

def dbEmpty : DB := ⟨[], [], [], []⟩

def rowW1 : PaymentRow := ⟨1, "pay_1", "PENDING", 1, "ESSENCIAL", 0⟩

def dbW1 : DB := ⟨[rowW1], [], [], []⟩

/-! ### Claim C1 -/

/-- C1: for a stored payment with external id `P` and a known event type
`E`, applying the status transition for `E` twice in succession reports
success both times, and the second application performs no update at
all (the state after the second call is exactly the state after the
first: the idempotent short-circuit fires). -/
theorem C1_idempotent_transition (now1 now2 : Nat) (P E st : String) (db : DB)
    (_hE : eventTarget E = some st)
    (hP : db.payments.any (fun p => p.asaas_payment_id == P) = true) :
    (updatePaymentStatus now1 P st db).1 = true
    ∧ (updatePaymentStatus now2 P st (updatePaymentStatus now1 P st db).2).1 = true
    ∧ (updatePaymentStatus now2 P st (updatePaymentStatus now1 P st db).2).2
        = (updatePaymentStatus now1 P st db).2 := by
  have hne : db.payments.filter (fun p => p.asaas_payment_id == P) ≠ [] := by
    obtain ⟨x, hx, hpx⟩ := List.any_eq_true.mp hP
    intro hcon
    have hmem : x ∈ db.payments.filter (fun p => p.asaas_payment_id == P) :=
      List.mem_filter.mpr ⟨hx, hpx⟩
    rw [hcon] at hmem
    exact absurd hmem (List.not_mem_nil x)
  rcases h : db.payments.filter (fun p => p.asaas_payment_id == P) with _ | ⟨p0, rest⟩
  · exact absurd h hne
  by_cases hst : p0.status = st
  · have r1 := updatePaymentStatus_short now1 P st db p0 rest h hst
    have r2 := updatePaymentStatus_short now2 P st db p0 rest h hst
    rw [r1]
    exact ⟨rfl, by rw [r2], by rw [r2]⟩
  · have r1 := updatePaymentStatus_update now1 P st db p0 rest h hst
    have hf2 : ((sqlUpdateStatus now1 P st db).1.payments.filter
        fun p => p.asaas_payment_id == P)
        = { p0 with status := st, updated_at := now1 }
          :: rest.map (fun p => { p with status := st, updated_at := now1 }) := by
      rw [updatePaymentStatus_filter_after, h, List.map_cons]
    have r2 := updatePaymentStatus_short now2 P st (sqlUpdateStatus now1 P st db).1
      { p0 with status := st, updated_at := now1 }
      (rest.map fun p => { p with status := st, updated_at := now1 }) hf2 rfl
    rw [r1]
    exact ⟨rfl, by rw [r2], by rw [r2]⟩

/-- Witness for C1 at a concrete database holding a `PENDING` payment
`pay_1`, with the `PAYMENT_CONFIRMED` event applied twice. -/
theorem C1_idempotent_transition_witness :
    eventTarget "PAYMENT_CONFIRMED" = some "CONFIRMED"
    ∧ (dbW1.payments.any fun p => p.asaas_payment_id == "pay_1") = true
    ∧ ((updatePaymentStatus 1 "pay_1" "CONFIRMED" dbW1).1 = true
       ∧ (updatePaymentStatus 2 "pay_1" "CONFIRMED"
            (updatePaymentStatus 1 "pay_1" "CONFIRMED" dbW1).2).1 = true
       ∧ (updatePaymentStatus 2 "pay_1" "CONFIRMED"
            (updatePaymentStatus 1 "pay_1" "CONFIRMED" dbW1).2).2
           = (updatePaymentStatus 1 "pay_1" "CONFIRMED" dbW1).2) :=
  ⟨rfl, by decide,
   C1_idempotent_transition 1 2 "pay_1" "PAYMENT_CONFIRMED" "CONFIRMED" dbW1 rfl (by decide)⟩

/-! ### Claim C6 -/

/-- C6: when the existence check of step 1 found the row with a status
different from the target, but the conditional `UPDATE` (matched by
`asaas_payment_id`, setting only `status` and `updated_at`, expressed
by the second conjunct) affects zero rows, `updatePaymentStatus`
reports failure without retrying and without modifying the state it
ran against. -/
theorem C6_race_zero_rows (now : Nat) (P st : String) (dbSel dbUpd : DB)
    (p0 : PaymentRow) (rest : List PaymentRow)
    (hsel : dbSel.payments.filter (fun p => p.asaas_payment_id == P) = p0 :: rest)
    (hst : p0.status ≠ st)
    (hrace : dbUpd.payments.countP (fun p => p.asaas_payment_id == P) = 0) :
    updatePaymentStatusCore now P st dbSel dbUpd = (false, dbUpd)
    ∧ ∀ db : DB,
        List.Forall₂
          (fun p q => q = if p.asaas_payment_id == P
                          then { p with status := st, updated_at := now } else p)
          db.payments (sqlUpdateStatus now P st db).1.payments := by
  constructor
  · have hzero : (sqlUpdateStatus now P st dbUpd).2 = 0 := by
      simp only [sqlUpdateStatus]
      rw [← List.countP_eq_length_filter]
      exact hrace
    have hid : (sqlUpdateStatus now P st dbUpd).1 = dbUpd := by
      have hmap := map_ite_of_countP_zero
        (fun p : PaymentRow => p.asaas_payment_id == P)
        (fun p => { p with status := st, updated_at := now }) dbUpd.payments hrace
      simp only [sqlUpdateStatus]
      rw [hmap]
    unfold updatePaymentStatusCore
    rw [hsel]
    simp [hst, hzero, hid]
  · intro db
    show List.Forall₂ _ db.payments (db.payments.map _)
    generalize db.payments = l
    induction l with
    | nil => exact List.Forall₂.nil
    | cons x xs ih => exact List.Forall₂.cons rfl ih

/-- Witness for C6: the `SELECT` snapshot holds the `PENDING` payment
`pay_1`, the `UPDATE` snapshot no longer holds it; the transition to
`CONFIRMED` reports failure and leaves the update-time state alone. -/
theorem C6_race_zero_rows_witness :
    dbW1.payments.filter (fun p => p.asaas_payment_id == "pay_1") = [rowW1]
    ∧ rowW1.status ≠ "CONFIRMED"
    ∧ dbEmpty.payments.countP (fun p => p.asaas_payment_id == "pay_1") = 0
    ∧ updatePaymentStatusCore 3 "pay_1" "CONFIRMED" dbW1 dbEmpty = (false, dbEmpty) :=
  ⟨by decide, by decide, rfl,
   (C6_race_zero_rows 3 "pay_1" "CONFIRMED" dbW1 dbEmpty rowW1 []
      (by decide) (by decide) rfl).1⟩

/-! ### Claim C10 -/

/-- C10: `updatePaymentStatus` is total and never propagates an
exception: whatever the two database snapshots and whatever errors the
underlying `connection.execute` calls throw, the function resolves with
a boolean, and whenever its body threw, the caught result is `false`. -/
theorem C10_total_no_throw (now : Nat) (apid st : String) (dbSel dbUpd : DB)
    (errs : Nat → Option String) :
    (∃ b : Bool, updatePaymentStatusE now apid st dbSel dbUpd errs = Except.ok b)
    ∧ (∀ e, updatePaymentStatusTry now apid st dbSel dbUpd errs = Except.error e →
        updatePaymentStatusE now apid st dbSel dbUpd errs = Except.ok false) := by
  constructor
  · unfold updatePaymentStatusE
    cases h : updatePaymentStatusTry now apid st dbSel dbUpd errs with
    | ok r => exact ⟨r.1, rfl⟩
    | error e => exact ⟨false, rfl⟩
  · intro e he
    unfold updatePaymentStatusE
    rw [he]

/-- An error oracle that makes every database call throw. -/
def errsBoom : Nat → Option String := fun _ => some "boom"

/-- Witness for C10: with the very first `SELECT` throwing, the body
fails but the function still resolves with `false`. -/
theorem C10_total_no_throw_witness :
    updatePaymentStatusTry 0 "pay_1" "CONFIRMED" dbW1 dbW1 errsBoom = Except.error "boom"
    ∧ updatePaymentStatusE 0 "pay_1" "CONFIRMED" dbW1 dbW1 errsBoom = Except.ok false :=
  ⟨rfl, (C10_total_no_throw 0 "pay_1" "CONFIRMED" dbW1 dbW1 errsBoom).2 "boom" rfl⟩

/-! ### Claim C2 -/

/-- C2: a recognized event delivered for an existing payment id leaves
that payment with exactly the status of the §4.3 table, and an
unrecognized event type leaves the whole payments table unchanged. -/
theorem C2_event_table :
    (∀ (now : Nat) (E st P : String) (db : DB),
       eventTarget E = some st →
       db.payments.countP (fun p => p.asaas_payment_id == P) = 1 →
       ∀ q ∈ (postAsaas now ⟨E, some P⟩ db).2.payments,
         q.asaas_payment_id = P → q.status = st)
    ∧ (∀ (now : Nat) (body : ReqBody) (db : DB),
       eventTarget body.event = none →
       (postAsaas now body db).2.payments = db.payments) := by
  constructor
  · intro now E st P db hE hcount q hq hqid
    have hd := dispatchEvent_known now E st P (insertWebhookLog ⟨E, some P⟩ db) hE
    rw [postAsaas_ok now ⟨E, some P⟩ db _ hd] at hq
    have hq' : q ∈ (updatePaymentStatus now P st (insertWebhookLog ⟨E, some P⟩ db)).2.payments :=
      hq
    exact updatePaymentStatus_status_after now P st (insertWebhookLog ⟨E, some P⟩ db)
      hcount q hq' hqid
  · intro now body db hE
    have hd := dispatchEvent_unknown now body (insertWebhookLog body db) hE
    rw [postAsaas_ok now body db _ hd]
    rfl

/-- Witness for C2: delivering `PAYMENT_CONFIRMED` for the stored
`PENDING` payment `pay_1` leaves every row carrying that id (there is
exactly one) with status `CONFIRMED`. -/
theorem C2_event_table_witness :
    eventTarget "PAYMENT_CONFIRMED" = some "CONFIRMED"
    ∧ dbW1.payments.countP (fun p => p.asaas_payment_id == "pay_1") = 1
    ∧ ∀ q ∈ (postAsaas 4 ⟨"PAYMENT_CONFIRMED", some "pay_1"⟩ dbW1).2.payments,
        q.asaas_payment_id = "pay_1" → q.status = "CONFIRMED" :=
  ⟨rfl, by decide,
   C2_event_table.1 4 "PAYMENT_CONFIRMED" "CONFIRMED" "pay_1" dbW1 rfl (by decide)⟩

/-! ### Claim C3 -/

/-- C3: a delivery whose payment id matches no Payment row still inserts
its WebhookLog row, still answers 200, creates and mutates no Payment
row, and the transition engine reports not-found by returning `false`
without throwing. -/
theorem C3_unknown_payment_id (now : Nat) (E P : String) (db : DB)
    (h : db.payments.countP (fun p => p.asaas_payment_id == P) = 0) :
    (postAsaas now ⟨E, some P⟩ db).1 = 200
    ∧ (postAsaas now ⟨E, some P⟩ db).2.payments = db.payments
    ∧ (∃ r ∈ (postAsaas now ⟨E, some P⟩ db).2.webhook_logs,
         r.payment_id = jsIdOrNull (some P) ∧ r.event_type = E ∧ r.payload = ⟨E, some P⟩)
    ∧ ∀ (n : Nat) (st : String), (updatePaymentStatus n P st db).1 = false := by
  have hfil : db.payments.filter (fun p => p.asaas_payment_id == P) = [] := by
    rw [← List.length_eq_zero, ← List.countP_eq_length_filter]
    exact h
  have hd := dispatchEvent_notFound now E P (insertWebhookLog ⟨E, some P⟩ db) hfil
  have hroute := postAsaas_ok now ⟨E, some P⟩ db _ hd
  refine ⟨by rw [hroute], by rw [hroute]; rfl, ?_, ?_⟩
  · rw [hroute]
    exact updateLast_exists
      (fun l => sqlEqOpt l.payment_id (jsIdOrNull (some P)) && l.event_type == E)
      (fun l => { l with processed := true })
      (fun r => r.payment_id = jsIdOrNull (some P) ∧ r.event_type = E
        ∧ r.payload = ⟨E, some P⟩)
      (fun a ha => ha)
      (insertWebhookLog ⟨E, some P⟩ db).webhook_logs
      ⟨_, List.mem_append_right _ (List.mem_singleton.mpr rfl), rfl, rfl, rfl⟩
  · intro n st
    rw [updatePaymentStatus_notFound n P st db hfil]

/-- Witness for C3 at the delivery of `PAYMENT_RECEIVED` for the unknown
id `pay_missing` against the one-payment database. -/
theorem C3_unknown_payment_id_witness :
    dbW1.payments.countP (fun p => p.asaas_payment_id == "pay_missing") = 0
    ∧ (postAsaas 4 ⟨"PAYMENT_RECEIVED", some "pay_missing"⟩ dbW1).1 = 200
    ∧ (postAsaas 4 ⟨"PAYMENT_RECEIVED", some "pay_missing"⟩ dbW1).2.payments = dbW1.payments
    ∧ (updatePaymentStatus 4 "pay_missing" "RECEIVED" dbW1).1 = false :=
  ⟨rfl,
   (C3_unknown_payment_id 4 "PAYMENT_RECEIVED" "pay_missing" dbW1 rfl).1,
   (C3_unknown_payment_id 4 "PAYMENT_RECEIVED" "pay_missing" dbW1 rfl).2.1,
   (C3_unknown_payment_id 4 "PAYMENT_RECEIVED" "pay_missing" dbW1 rfl).2.2.2 4 "RECEIVED"⟩

/-! ### Claim C5 -/

/-- Whatever happens downstream, the final `webhook_logs` table of the
route is the inserted table rewritten by some field-preserving
`updateLast` (mark-processed, or the error-message update). -/
theorem postAsaasFallible_logs (now : Nat) (body : ReqBody) (db : DB)
    (dispatchErr markErr : Option String) :
    ∃ (pred : WebhookLogRow → Bool) (g : WebhookLogRow → WebhookLogRow),
      (∀ a, (g a).payment_id = a.payment_id ∧ (g a).event_type = a.event_type
        ∧ (g a).payload = a.payload)
      ∧ (postAsaasFallible now body db dispatchErr markErr).2.webhook_logs
          = updateLast pred g (insertWebhookLog body db).webhook_logs := by
  cases dispatchErr with
  | some e =>
    exact ⟨fun l => sqlEqOpt l.payment_id (jsIdOrNull body.paymentId),
      fun l => { l with error_message := some e }, fun a => ⟨rfl, rfl, rfl⟩, rfl⟩
  | none =>
    cases hd : dispatchEvent now body (insertWebhookLog body db) with
    | error e =>
      refine ⟨fun l => sqlEqOpt l.payment_id (jsIdOrNull body.paymentId),
        fun l => { l with error_message := some e }, fun a => ⟨rfl, rfl, rfl⟩, ?_⟩
      simp only [postAsaasFallible, hd]
      rfl
    | ok db2 =>
      have hlogs : db2.webhook_logs = (insertWebhookLog body db).webhook_logs :=
        dispatchEvent_logs now body _ db2 hd
      cases markErr with
      | some e =>
        refine ⟨fun l => sqlEqOpt l.payment_id (jsIdOrNull body.paymentId),
          fun l => { l with error_message := some e }, fun a => ⟨rfl, rfl, rfl⟩, ?_⟩
        simp only [postAsaasFallible, hd]
        show updateLast _ _ db2.webhook_logs = _
        rw [hlogs]
      | none =>
        refine ⟨fun l => sqlEqOpt l.payment_id (jsIdOrNull body.paymentId)
            && l.event_type == body.event,
          fun l => { l with processed := true }, fun a => ⟨rfl, rfl, rfl⟩, ?_⟩
        simp only [postAsaasFallible, hd]
        show updateLast _ _ db2.webhook_logs = _
        rw [hlogs]

/-- C5: the WebhookLog insert happens before any dispatch (it cannot
touch the payments table), and the inserted row survives in the final
state of every execution, whichever downstream step (dispatch or
mark-processed) later throws. -/
theorem C5_log_survives_failures (now : Nat) (body : ReqBody) (db : DB)
    (dispatchErr markErr : Option String) :
    (insertWebhookLog body db).payments = db.payments
    ∧ ∃ r ∈ (postAsaasFallible now body db dispatchErr markErr).2.webhook_logs,
        r.payment_id = jsIdOrNull body.paymentId ∧ r.event_type = body.event
        ∧ r.payload = body := by
  refine ⟨rfl, ?_⟩
  obtain ⟨pred, g, hg, hshape⟩ := postAsaasFallible_logs now body db dispatchErr markErr
  rw [hshape]
  exact updateLast_exists pred g
    (fun r => r.payment_id = jsIdOrNull body.paymentId ∧ r.event_type = body.event
      ∧ r.payload = body)
    (fun a ha => ⟨(hg a).1.trans ha.1, (hg a).2.1.trans ha.2.1, (hg a).2.2.trans ha.2.2⟩)
    (insertWebhookLog body db).webhook_logs
    ⟨_, List.mem_append_right _ (List.mem_singleton.mpr rfl), rfl, rfl, rfl⟩

/-! ### Claim C4 -/

/-- C4: with a configured secret (non-empty, not the placeholder) the
middleware accepts exactly the requests whose `asaas-signature` header
equals the keyed HMAC of the serialized body, rejecting any mismatch or
absence with 401; with no configured secret every request is accepted. -/
theorem C4_signature_verification (hmacHex : String → String → String)
    (secret sig : Option String) (bodyJson : String) :
    (∀ s, secret = some s → s ≠ "" → s ≠ "your_webhook_secret_here" →
       ((verifyWebhookSignature hmacHex secret sig bodyJson = MwResult.accepted
           ↔ sig = some (hmacHex s bodyJson))
        ∧ (sig ≠ some (hmacHex s bodyJson) →
             verifyWebhookSignature hmacHex secret sig bodyJson = MwResult.rejected 401)))
    ∧ (¬ secretConfigured secret →
         verifyWebhookSignature hmacHex secret sig bodyJson = MwResult.accepted) := by
  have hv : ∀ s, verifyWebhookSignature hmacHex (some s) sig bodyJson
      = if s = "" ∨ s = "your_webhook_secret_here" then MwResult.accepted
        else
          match sig with
          | none => MwResult.rejected 401
          | some sg =>
            if sg = hmacHex s bodyJson then MwResult.accepted else MwResult.rejected 401 :=
    fun _ => rfl
  constructor
  · intro s hs h1 h2
    subst hs
    rw [hv s, if_neg (by tauto)]
    cases sig with
    | none => exact ⟨by simp, fun _ => rfl⟩
    | some sg =>
      by_cases hsg : sg = hmacHex s bodyJson
      · simp [hsg]
      · simp [hsg]
  · intro hn
    cases secret with
    | none => rfl
    | some s =>
      have : s = "" ∨ s = "your_webhook_secret_here" := by
        by_contra hcon
        push_neg at hcon
        exact hn ⟨s, rfl, hcon.1, hcon.2⟩
      rw [hv s, if_pos this]

/-- A concrete stand-in for the HMAC function, used by the witness. -/
def hmacW : String → String → String := fun s b => s ++ b

/-- Witness for C4: a matching signature is accepted under the
configured secret `k`; with no secret set, a request with a stray
signature is accepted too. -/
theorem C4_signature_verification_witness :
    (verifyWebhookSignature hmacW (some "k") (some (hmacW "k" "body")) "body"
        = MwResult.accepted
      ↔ some (hmacW "k" "body") = some (hmacW "k" "body"))
    ∧ verifyWebhookSignature hmacW none (some "whatever") "body" = MwResult.accepted :=
  ⟨((C4_signature_verification hmacW (some "k") (some (hmacW "k" "body")) "body").1 "k" rfl
      (by decide) (by decide)).1,
   (C4_signature_verification hmacW none (some "whatever") "body").2
     (by simp [secretConfigured])⟩

/-! ### Claim C7 -/

def rowC7 : PaymentRow := ⟨1, "pay_123", "PENDING", 1, "ESSENCIAL", 0⟩

def custC7 : CustomerRow := ⟨1, "Ana", "12345678901", "a@x.com", "11999999999", "cus_1"⟩

def dbC7 : DB := ⟨[rowC7], [], [], [custC7]⟩

/-- C7 (code bug): delivering `PAYMENT_RECEIVED` for the `PENDING`
payment `pay_123` does move its status to `RECEIVED` and does invoke
the activation side effect, but `activateCustomerServices` aborts on
its very first statement — the call to the nowhere-defined
`debugTableStructure` — so no feature-activation row is ever created,
even though the (unreachable) `activateEssentialPlan` would upsert
exactly one. -/
theorem C7_activation_unreachable :
    (postAsaas 9 ⟨"PAYMENT_RECEIVED", some "pay_123"⟩ dbC7).2.payments.map PaymentRow.status
      = ["RECEIVED"]
    ∧ (postAsaas 9 ⟨"PAYMENT_RECEIVED", some "pay_123"⟩ dbC7).2.customer_features = []
    ∧ activateCustomerServicesBody "pay_123" dbC7
        = Except.error "ReferenceError: debugTableStructure is not defined"
    ∧ (activateEssentialPlan 1 dbC7).customer_features = [⟨1, "basic_features", true⟩] :=
  ⟨rfl, rfl, rfl, rfl⟩

/-! ### Claim C8 -/

/-- The payment-creation tail never touches the customers table. -/
theorem finishPaymentCreation_customers (now : Nat) (gw : GatewayResp) (req : PaymentReqV)
    (cid : Nat) (acid : String) (db : DB) :
    (finishPaymentCreation now gw req cid acid db).2.1.customers = db.customers := by
  unfold finishPaymentCreation
  cases gw.paymentId with
  | none => rfl
  | some apid => rfl

/-- The payment-creation tail always passes the supplied remote customer
reference to the gateway payment creation. -/
theorem finishPaymentCreation_ref (now : Nat) (gw : GatewayResp) (req : PaymentReqV)
    (cid : Nat) (acid : String) (db : DB) :
    (finishPaymentCreation now gw req cid acid db).2.2 = some acid := by
  unfold finishPaymentCreation
  cases gw.paymentId with
  | none => rfl
  | some apid => rfl

/-- C8: a valid payment-creation request matching an existing customer
by email or tax-id inserts no new Customer row, refreshes the matched
customer's name and phone, and reuses its remote customer reference;
a request matching no customer inserts exactly one new Customer row
once the remote creation yields an id, and none when it does not. -/
theorem C8_find_or_create_customer (now : Nat) (gw : GatewayResp) (req : PaymentReqV)
    (db : DB) :
    (∀ c0 rest,
       db.customers.filter (fun c => c.email == req.email || c.cpf == req.cpf) = c0 :: rest →
       ((createPaymentHandler now gw req db).2.1.customers.length = db.customers.length
        ∧ (createPaymentHandler now gw req db).2.2 = some c0.asaas_customer_id
        ∧ ∀ c ∈ (createPaymentHandler now gw req db).2.1.customers,
            c.id = c0.id → c.nome = req.nome ∧ c.telefone = req.telefone))
    ∧ (db.customers.filter (fun c => c.email == req.email || c.cpf == req.cpf) = [] →
       ((∀ acid, gw.customerId = some acid →
           (createPaymentHandler now gw req db).2.1.customers
             = db.customers ++ [⟨db.customers.length + 1, req.nome, req.cpf, req.email,
                 req.telefone, acid⟩])
        ∧ (gw.customerId = none →
           (createPaymentHandler now gw req db).2.1.customers = db.customers
           ∧ (createPaymentHandler now gw req db).1 = 500))) := by
  constructor
  · intro c0 rest hf
    have hcust : (createPaymentHandler now gw req db).2.1.customers
        = db.customers.map (fun c =>
            if c.id == c0.id then { c with nome := req.nome, telefone := req.telefone } else c)
      := by
      simp only [createPaymentHandler, hf]
      rw [finishPaymentCreation_customers]
    have hacid : (createPaymentHandler now gw req db).2.2 = some c0.asaas_customer_id := by
      simp only [createPaymentHandler, hf]
      rw [finishPaymentCreation_ref]
    refine ⟨by rw [hcust]; exact List.length_map _ _, hacid, ?_⟩
    intro c hc hcid
    rw [hcust] at hc
    obtain ⟨a, _, hca⟩ := List.mem_map.mp hc
    by_cases ha : a.id = c0.id
    · rw [← hca]
      simp [ha]
    · exfalso
      rw [← hca] at hcid
      simp [ha] at hcid
  · intro hf
    constructor
    · intro acid hacid
      simp only [createPaymentHandler, hf, hacid]
      rw [finishPaymentCreation_customers]
    · intro hnone
      simp only [createPaymentHandler, hf, hnone]
      exact ⟨trivial, trivial⟩

def reqW : PaymentReqV := ⟨"Ana", "12345678901", "a@x.com", "11999999999", "PIX", "ESSENCIAL", 49⟩

def gwW : GatewayResp := ⟨some "cus_9", some "pay_9"⟩

/-- Witness for C8 on the empty database: no customer matches, and
exactly one new Customer row carrying the remote reference is
inserted. -/
theorem C8_find_or_create_customer_witness :
    dbEmpty.customers.filter (fun c => c.email == reqW.email || c.cpf == reqW.cpf) = []
    ∧ (createPaymentHandler 5 gwW reqW dbEmpty).2.1.customers
        = [⟨1, "Ana", "12345678901", "a@x.com", "11999999999", "cus_9"⟩] :=
  ⟨rfl, ((C8_find_or_create_customer 5 gwW reqW dbEmpty).2 rfl).1 "cus_9" rfl⟩

/-! ### Claim C9 -/

def logC9 : WebhookLogRow :=
  ⟨1, some "pay_1", "PAYMENT_CONFIRMED", ⟨"PAYMENT_CONFIRMED", some "pay_1"⟩, false, none⟩

def dbC9 : DB := ⟨[rowW1], [logC9], [], []⟩

/-- C9 counterexample: the reprocessing endpoint does NOT re-run the
original dispatch for every event type.  For the stored
`PAYMENT_CONFIRMED` payload of log 1, the original delivery would move
payment `pay_1` from `PENDING` to `CONFIRMED`, but reprocessing the log
leaves it `PENDING` (its switch handles only three of the eight event
types). -/
theorem C9_reprocess_counterexample :
    (reprocessWebhook 7 1 dbC9).2.payments.map PaymentRow.status = ["PENDING"]
    ∧ (postAsaas 7 ⟨"PAYMENT_CONFIRMED", some "pay_1"⟩ dbC9).2.payments.map PaymentRow.status
        = ["CONFIRMED"]
    ∧ (reprocessWebhook 7 1 dbC9).2.payments
        ≠ (postAsaas 7 ⟨"PAYMENT_CONFIRMED", some "pay_1"⟩ dbC9).2.payments :=
  ⟨rfl, rfl, by decide⟩

/-- For the three events its switch covers, the reprocessing dispatch is
exactly the original dispatch. -/
theorem reprocessDispatch_eq_dispatch (now : Nat) (body : ReqBody) (db : DB)
    (h : body.event = "PAYMENT_CREATED" ∨ body.event = "PAYMENT_RECEIVED"
      ∨ body.event = "PAYMENT_OVERDUE") :
    reprocessDispatch now body db = dispatchEvent now body db := by
  rcases h with h | h | h <;> simp [reprocessDispatch, dispatchEvent, h]

/-- Outside those three events the reprocessing dispatch is a no-op. -/
theorem reprocessDispatch_other (now : Nat) (body : ReqBody) (db : DB)
    (h1 : body.event ≠ "PAYMENT_CREATED") (h2 : body.event ≠ "PAYMENT_RECEIVED")
    (h3 : body.event ≠ "PAYMENT_OVERDUE") :
    reprocessDispatch now body db = Except.ok db := by
  simp [reprocessDispatch, h1, h2, h3]

/-- C9 as amended: reprocessing a found WebhookLog row re-runs the
original event dispatch only when the stored event type is
`PAYMENT_CREATED`, `PAYMENT_RECEIVED` or `PAYMENT_OVERDUE` — for those
the payments table ends exactly as the original dispatch leaves it and
the endpoint answers 200; for every other stored event type the
payments table is left unchanged. -/
theorem C9_reprocess_amended (now wid : Nat) (db : DB) (log : WebhookLogRow)
    (rest : List WebhookLogRow)
    (hfind : db.webhook_logs.filter (fun l => l.id == wid) = log :: rest) :
    ((log.payload.event = "PAYMENT_CREATED" ∨ log.payload.event = "PAYMENT_RECEIVED"
        ∨ log.payload.event = "PAYMENT_OVERDUE") →
      ∀ db1, dispatchEvent now log.payload db = Except.ok db1 →
        (reprocessWebhook now wid db).1 = 200
        ∧ (reprocessWebhook now wid db).2.payments = db1.payments)
    ∧ ((log.payload.event ≠ "PAYMENT_CREATED" ∧ log.payload.event ≠ "PAYMENT_RECEIVED"
        ∧ log.payload.event ≠ "PAYMENT_OVERDUE") →
      (reprocessWebhook now wid db).2.payments = db.payments) := by
  constructor
  · intro hev db1 hd1
    have hrd : reprocessDispatch now log.payload db = Except.ok db1 := by
      rw [reprocessDispatch_eq_dispatch now log.payload db hev]
      exact hd1
    simp only [reprocessWebhook, hfind, hrd]
    exact ⟨trivial, trivial⟩
  · intro ⟨h1, h2, h3⟩
    have hrd := reprocessDispatch_other now log.payload db h1 h2 h3
    simp only [reprocessWebhook, hfind, hrd]

def logC9b : WebhookLogRow :=
  ⟨1, some "pay_1", "PAYMENT_CREATED", ⟨"PAYMENT_CREATED", some "pay_1"⟩, false, none⟩

def dbC9b : DB := ⟨[rowW1], [logC9b], [], []⟩

/-- Witness for the amended C9: reprocessing a stored `PAYMENT_CREATED`
log answers 200 and leaves the payments table exactly as the original
dispatch of that payload does (here: unchanged, the payment already
being `PENDING`). -/
theorem C9_reprocess_amended_witness :
    dbC9b.webhook_logs.filter (fun l => l.id == 1) = [logC9b]
    ∧ (reprocessWebhook 7 1 dbC9b).1 = 200
    ∧ (reprocessWebhook 7 1 dbC9b).2.payments = dbC9b.payments :=
  ⟨rfl,
   ((C9_reprocess_amended 7 1 dbC9b logC9b [] rfl).1 (Or.inl rfl) dbC9b rfl).1,
   ((C9_reprocess_amended 7 1 dbC9b logC9b [] rfl).1 (Or.inl rfl) dbC9b rfl).2⟩

end Back
